import Mathlib

/-!
Shallow embedding of MaxText train_tokenizer.py.

The corpus sampler _dump_chars_to_textfile and the train-and-publish
coordinator _train_sentencepiece are translated from the Python source.
Byte strings are modelled as Lean strings of one-byte characters, the
scratch file as the accumulated string content, and the coordinator's
filesystem and timing side effects as an explicit event trace.
-/

/-- A dataset record: an ordered association of field keys to byte-string
values, modelling one element yielded by dataset.as_numpy_iterator(). -/
abbrev Record : Type := List (String × String)

/-- Python dict lookup example[k] on a record: first binding of the key,
none models a KeyError. -/
def findField : Record → String → Option String
  | [], _ => none
  | (k2, v) :: rest, k => if k2 = k then some v else findField rest k

/-- Outcome of the inner for-loop of _dump_chars_to_textfile over data_keys
for one record: the updated file content and counter, or a KeyError escaping
with whatever was already written. -/
inductive FieldsResult where
  | ok (content : String) (charCount : Nat)
  | keyError (content : String) (charCount : Nat)
  deriving DecidableEq, Repr

/-- The inner loop of _dump_chars_to_textfile: for k in data_keys,
line = example[k] + newline; char_count += len(line); outfp.write(line). -/
def writeFields (exm : Record) : List String → String → Nat → FieldsResult
  | [], content, cnt => FieldsResult.ok content cnt
  | k :: ks, content, cnt =>
    match findField exm k with
    | none => FieldsResult.keyError content cnt
    | some v => writeFields exm ks (content ++ (v ++ "\n")) (cnt + (v ++ "\n").length)

/-- Result of _dump_chars_to_textfile: a normal return carrying the scratch
file content and char_count, or the exception that escaped (StopIteration
from next() on an exhausted stream, or KeyError), carrying the content the
file holds at that point. -/
inductive DumpOutcome where
  | ok (content : String) (charCount : Nat)
  | streamExhausted (content : String) (charCount : Nat)
  | keyError (content : String) (charCount : Nat)
  deriving DecidableEq, Repr

/-- The while-loop of _dump_chars_to_textfile: while char_count < maxchars,
pull the next record (StopIteration if the stream is exhausted) and write
every configured field of that record. -/
def dumpLoop (data_keys : List String) (maxchars : Int) :
    List Record → String → Nat → DumpOutcome
  | records, content, cnt =>
    if (cnt : Int) < maxchars then
      match records with
      | [] => DumpOutcome.streamExhausted content cnt
      | exm :: rest =>
        match writeFields exm data_keys content cnt with
        | FieldsResult.ok c2 n2 => dumpLoop data_keys maxchars rest c2 n2
        | FieldsResult.keyError c2 n2 => DumpOutcome.keyError c2 n2
    else DumpOutcome.ok content cnt

/-- Translation of _dump_chars_to_textfile: char_count starts at 0, the
scratch file starts empty, and the dataset is consumed front to back. -/
def dump_chars_to_textfile (dataset : List Record) (maxchars : Int)
    (data_keys : List String) : DumpOutcome :=
  dumpLoop data_keys maxchars dataset "" 0

/-- An observable step taken by _train_sentencepiece: invoking the corpus
sampler, invoking SentencePieceTrainer.Train, and the tf.io.gfile and
time.sleep calls of the publish / wait branch. -/
inductive Ev where
  | sample (maxchars : Int) (fname : String)
  | train (input : String) (modelPref : String) (argstr : String)
  | makedirs (dir : String)
  | copy (src : String) (dst : String) (overwrite : Bool)
  | rename (src : String) (dst : String) (overwrite : Bool)
  | pollExists (path : String) (result : Bool)
  | sleep (seconds : Nat)
  deriving DecidableEq, Repr

/-- The keyword arguments of _train_sentencepiece. character_coverage is a
printed float in the source and is carried here as its printed form, since
only its appearance in the argument string matters. -/
structure TrainParams where
  vocab_size : Int
  maxchars : Int
  assets_path : String
  model_path : String
  model_type : String
  character_coverage : String
  data_keys : List String

/-- The ambient effects _train_sentencepiece draws on: jax.process_index(),
the names handed out for the two NamedTemporaryFile calls, path
normalization os.path.abspath(os.path.expanduser(.)), and the value of
tf.io.gfile.exists at the n-th poll of the follower loop. -/
structure Env where
  processIndex : Nat
  dumpFname : String
  modelFpName : String
  normPath : String → String
  pollExists : Nat → Bool

/-- The argument string handed to SentencePieceTrainer.Train, built exactly
as the source joins its five f-strings with single spaces. -/
def mkArgstr (fname : String) (vocab_size : Int) (character_coverage : String)
    (modelPref : String) (model_type : String) : String :=
  String.intercalate " "
    ["--input=" ++ fname, "--vocab_size=" ++ toString vocab_size,
     "--character_coverage=" ++ character_coverage,
     "--model_prefix=" ++ modelPref, "--model_type=" ++ model_type]

/-- Python str.startswith("gs://"): the five characters g s : / / lead the
string. Stated over the character list so that it evaluates by reduction. -/
def startsWithGS (s : String) : Bool :=
  List.isPrefixOf "gs://".data s.data

/-- abs_model_path as computed at the top of _train_sentencepiece: gs://
paths are kept as is, anything else goes through abspath(expanduser(.)). -/
def absModelPathOf (p : TrainParams) (env : Env) : String :=
  if startsWithGS p.model_path then p.model_path else env.normPath p.model_path

/-- The follower branch: while not tf.io.gfile.exists(abs_model_path):
time.sleep(1), then one more time.sleep(1) after the loop exits. The i-th
existence check reads exists? i; fuel bounds how many checks are unrolled,
and none means the loop was still running when the fuel ran out. -/
def followerPoll (path : String) (ex : Nat → Bool) : Nat → Nat → Option (List Ev)
  | _, 0 => none
  | i, fuel + 1 =>
    if ex i then some [Ev.pollExists path true, Ev.sleep 1]
    else
      match followerPoll path ex (i + 1) fuel with
      | some rest => some (Ev.pollExists path false :: Ev.sleep 1 :: rest)
      | none => none

/-- Result of running _train_sentencepiece: a normal return with the trace
of effects and the returned abs_model_path, an exception propagating out of
_dump_chars_to_textfile, or a follower still blocked in its poll loop when
the fuel ran out. -/
inductive TrainResult where
  | ok (trace : List Ev) (ret : String)
  | samplerError (outcome : DumpOutcome)
  | waiting
  deriving DecidableEq, Repr

/-- Translation of _train_sentencepiece: compute abs_model_path, sample the
corpus (an exception there propagates), train, then either publish (process
index 0: optional makedirs, copy to the .rntmp staging path, rename onto
abs_model_path, both with overwrite=True) or poll for abs_model_path. -/
def train_sentencepiece (p : TrainParams) (env : Env) (dataset : List Record)
    (fuel : Nat) : TrainResult :=
  let abs_model_path := absModelPathOf p env
  let abs_assets_path := env.normPath p.assets_path
  match dump_chars_to_textfile dataset p.maxchars p.data_keys with
  | DumpOutcome.ok _ _ =>
    let argstr := mkArgstr env.dumpFname p.vocab_size p.character_coverage
      env.modelFpName p.model_type
    let pre := [Ev.sample p.maxchars env.dumpFname,
                Ev.train env.dumpFname env.modelFpName argstr]
    if env.processIndex = 0 then
      let copy_rename_path := abs_model_path ++ ".rntmp"
      TrainResult.ok
        (pre ++
          (if startsWithGS p.model_path then [] else [Ev.makedirs abs_assets_path]) ++
          [Ev.copy (env.modelFpName ++ ".model") copy_rename_path true,
           Ev.rename copy_rename_path abs_model_path true])
        abs_model_path
    else
      match followerPoll abs_model_path env.pollExists 0 fuel with
      | some polls => TrainResult.ok (pre ++ polls) abs_model_path
      | none => TrainResult.waiting
  | outcome => TrainResult.samplerError outcome

/-- The path at which an event creates or replaces a file, if any: the
sampler fills its scratch file, SentencePieceTrainer.Train produces
model_prefix + ".model", copy and rename create their destinations.
makedirs creates a directory, not a file, and polls and sleeps write
nothing. -/
def Ev.fileWriteTarget : Ev → Option String
  | Ev.sample _ fname => some fname
  | Ev.train _ mp _ => some (mp ++ ".model")
  | Ev.copy _ dst _ => some dst
  | Ev.rename _ dst _ => some dst
  | _ => none

/-- Whether an event belongs to the publish step (the leader-only block
guarded by jax.process_index() == 0). -/
def Ev.isPublish : Ev → Bool
  | Ev.makedirs _ => true
  | Ev.copy _ _ _ => true
  | Ev.rename _ _ _ => true
  | _ => false

/-- All configured data keys are present in a record, so Python dict lookup
raises no KeyError on it. -/
def keysPresent (exm : Record) (data_keys : List String) : Prop :=
  ∀ k ∈ data_keys, (findField exm k).isSome

instance (exm : Record) (data_keys : List String) :
    Decidable (keysPresent exm data_keys) := by
  unfold keysPresent; infer_instance

/-- The bytes one record contributes to the scratch file: each configured
field value followed by a newline, in data-key order. -/
def recordLine : List String → Record → String
  | [], _ => ""
  | k :: ks, exm => ((findField exm k).getD "" ++ "\n") ++ recordLine ks exm

/-- Serialized length of one whole record write: the sum over its configured
fields of the value length plus one for the newline. -/
def recordWriteLen (data_keys : List String) (exm : Record) : Nat :=
  (recordLine data_keys exm).length

/-- Concatenation of the whole-record serializations of a record list. -/
def joinLines (data_keys : List String) : List Record → String
  | [] => ""
  | r :: rs => recordLine data_keys r ++ joinLines data_keys rs

/-- Total serialized length of a record list. -/
def totalWriteLen (data_keys : List String) : List Record → Nat
  | [] => 0
  | r :: rs => recordWriteLen data_keys r + totalWriteLen data_keys rs

/-- The length of a single serialized field write (one field value plus its
newline) for each configured field of a record. -/
def fieldWriteLens (data_keys : List String) (exm : Record) : List Nat :=
  data_keys.map (fun k => ((findField exm k).getD "").length + 1)

/-- The largest single serialized field write occurring anywhere in a record
stream, the bound named maxSingleFieldLength by the specification. -/
def maxSingleFieldWriteLen (data_keys : List String) (records : List Record) : Nat :=
  (records.map (fun r => (fieldWriteLens data_keys r).foldr max 0)).foldr max 0

/-- Modelled from the spec, for comparison with the source translation: the
inner field loop as section 4.1 words it, stopping as soon as the running
counter reaches the budget even mid-record, so that the current record's
remaining fields are not written. -/
def specWriteFieldsMidStop (exm : Record) (maxBytes : Int) :
    List String → String → Nat → FieldsResult
  | [], content, cnt => FieldsResult.ok content cnt
  | k :: ks, content, cnt =>
    match findField exm k with
    | none => FieldsResult.keyError content cnt
    | some v =>
      let c2 := content ++ (v ++ "\n")
      let n2 := cnt + (v ++ "\n").length
      if (n2 : Int) < maxBytes then specWriteFieldsMidStop exm maxBytes ks c2 n2
      else FieldsResult.ok c2 n2

/-- Modelled from the spec, for comparison with the source translation: the
sampler with the mid-record stop of section 4.1 in place of the source's
between-record check. -/
def specDumpLoopMidStop (data_keys : List String) (maxBytes : Int) :
    List Record → String → Nat → DumpOutcome
  | records, content, cnt =>
    if (cnt : Int) < maxBytes then
      match records with
      | [] => DumpOutcome.streamExhausted content cnt
      | exm :: rest =>
        match specWriteFieldsMidStop exm maxBytes data_keys content cnt with
        | FieldsResult.ok c2 n2 => specDumpLoopMidStop data_keys maxBytes rest c2 n2
        | FieldsResult.keyError c2 n2 => DumpOutcome.keyError c2 n2
    else DumpOutcome.ok content cnt

/-- The spec-worded sampler, run like dump_chars_to_textfile from an empty
scratch file and a zero counter. -/
def dumpCharsSpecMidStop (dataset : List Record) (maxBytes : Int)
    (data_keys : List String) : DumpOutcome :=
  specDumpLoopMidStop data_keys maxBytes dataset "" 0

theorem dumpLoop_nil (data_keys : List String) (maxchars : Int) (content : String) (cnt : Nat) :
    dumpLoop data_keys maxchars [] content cnt
      = if (cnt : Int) < maxchars then DumpOutcome.streamExhausted content cnt
        else DumpOutcome.ok content cnt := rfl

theorem dumpLoop_cons (data_keys : List String) (maxchars : Int) (exm : Record)
    (rest : List Record) (content : String) (cnt : Nat) :
    dumpLoop data_keys maxchars (exm :: rest) content cnt
      = if (cnt : Int) < maxchars then
          match writeFields exm data_keys content cnt with
          | FieldsResult.ok c2 n2 => dumpLoop data_keys maxchars rest c2 n2
          | FieldsResult.keyError c2 n2 => DumpOutcome.keyError c2 n2
        else DumpOutcome.ok content cnt := rfl

theorem writeFields_of_keysPresent (exm : Record) :
    ∀ (ks : List String) (content : String) (cnt : Nat), keysPresent exm ks →
      writeFields exm ks content cnt
        = FieldsResult.ok (content ++ recordLine ks exm) (cnt + recordWriteLen ks exm) := by
  intro ks
  induction ks with
  | nil =>
    intro content cnt _
    simp [writeFields, recordLine, recordWriteLen]
  | cons k ks ih =>
    intro content cnt h
    have hk : (findField exm k).isSome := h k (by simp)
    obtain ⟨v, hv⟩ := Option.isSome_iff_exists.mp hk
    have hks : keysPresent exm ks := fun k2 hk2 => h k2 (by simp [hk2])
    simp only [writeFields, hv, ih _ _ hks, recordLine, recordWriteLen, Option.getD_some,
      String.length_append]
    rw [String.append_assoc, Nat.add_assoc]

theorem writeFields_ok_length (exm : Record) :
    ∀ (ks : List String) (content : String) (cnt : Nat) (c2 : String) (n2 : Nat),
      writeFields exm ks content cnt = FieldsResult.ok c2 n2 →
      cnt = content.length → n2 = c2.length := by
  intro ks
  induction ks with
  | nil =>
    intro content cnt c2 n2 h hlen
    simp [writeFields] at h
    obtain ⟨rfl, rfl⟩ := h
    exact hlen
  | cons k ks ih =>
    intro content cnt c2 n2 h hlen
    cases hv : findField exm k with
    | none => simp [writeFields, hv] at h
    | some v =>
      simp only [writeFields, hv] at h
      exact ih _ _ _ _ h (by simp [String.length_append, hlen])

theorem dumpLoop_ok_length (data_keys : List String) (maxchars : Int) :
    ∀ (records : List Record) (content : String) (cnt : Nat) (c : String) (n : Nat),
      dumpLoop data_keys maxchars records content cnt = DumpOutcome.ok c n →
      cnt = content.length → n = c.length := by
  intro records
  induction records with
  | nil =>
    intro content cnt c n h hlen
    rw [dumpLoop_nil] at h
    by_cases hc : (cnt : Int) < maxchars
    · simp [hc] at h
    · simp [hc] at h
      obtain ⟨rfl, rfl⟩ := h
      exact hlen
  | cons r rs ih =>
    intro content cnt c n h hlen
    rw [dumpLoop_cons] at h
    by_cases hc : (cnt : Int) < maxchars
    · rw [if_pos hc] at h
      cases hw : writeFields r data_keys content cnt with
      | ok c2 n2 =>
        rw [hw] at h
        exact ih _ _ _ _ h (writeFields_ok_length r _ _ _ _ _ hw hlen)
      | keyError c2 n2 =>
        rw [hw] at h
        exact absurd h (by simp)
    · rw [if_neg hc] at h
      obtain ⟨rfl, rfl⟩ := DumpOutcome.ok.inj h
      exact hlen

theorem dumpLoop_ok_prefix (data_keys : List String) (maxchars : Int) :
    ∀ (records : List Record) (content : String) (cnt : Nat) (c : String) (n : Nat),
      (∀ r ∈ records, keysPresent r data_keys) →
      dumpLoop data_keys maxchars records content cnt = DumpOutcome.ok c n →
      ∃ kk, kk ≤ records.length ∧
        c = content ++ joinLines data_keys (records.take kk) ∧
        n = cnt + totalWriteLen data_keys (records.take kk) ∧
        ¬ (((cnt + totalWriteLen data_keys (records.take kk) : Nat) : Int) < maxchars) ∧
        ∀ j, j < kk → (((cnt + totalWriteLen data_keys (records.take j) : Nat) : Int) < maxchars) := by
  intro records
  induction records with
  | nil =>
    intro content cnt c n _ h
    rw [dumpLoop_nil] at h
    by_cases hc : (cnt : Int) < maxchars
    · simp [hc] at h
    · simp [hc] at h
      obtain ⟨rfl, rfl⟩ := h
      refine ⟨0, by simp, by simp [joinLines, String.append_empty], by simp [totalWriteLen], ?_, by omega⟩
      simpa [totalWriteLen] using hc
  | cons r rs ih =>
    intro content cnt c n hkeys h
    rw [dumpLoop_cons] at h
    by_cases hc : (cnt : Int) < maxchars
    · rw [if_pos hc, writeFields_of_keysPresent r data_keys content cnt (hkeys r (by simp))] at h
      have hrs : ∀ x ∈ rs, keysPresent x data_keys := fun x hx => hkeys x (by simp [hx])
      obtain ⟨kk, hkk, hcc, hnn, hstop, hmin⟩ := ih _ _ _ _ hrs h
      refine ⟨kk + 1, by simpa using Nat.succ_le_succ hkk, ?_, ?_, ?_, ?_⟩
      · rw [hcc]
        simp [List.take_succ_cons, joinLines, String.append_assoc]
      · rw [hnn]
        simp [List.take_succ_cons, totalWriteLen]
        omega
      · simp only [List.take_succ_cons, totalWriteLen]
        intro hcontra
        exact hstop (by push_cast at hcontra ⊢; omega)
      · intro j hj
        cases j with
        | zero => simpa [totalWriteLen] using hc
        | succ j2 =>
          have := hmin j2 (by omega)
          simp only [List.take_succ_cons, totalWriteLen]
          push_cast at this ⊢
          omega
    · rw [if_neg hc] at h
      obtain ⟨rfl, rfl⟩ := DumpOutcome.ok.inj h
      refine ⟨0, by simp, by simp [joinLines, String.append_empty], by simp [totalWriteLen], ?_, by omega⟩
      simpa [totalWriteLen] using hc

theorem dumpLoop_ok_bounds (data_keys : List String) (maxchars : Int) (R : Nat) :
    ∀ (records : List Record) (content : String) (cnt : Nat) (c : String) (n : Nat),
      (∀ r ∈ records, keysPresent r data_keys) →
      (∀ r ∈ records, recordWriteLen data_keys r ≤ R) →
      ((cnt : Int) < maxchars) →
      dumpLoop data_keys maxchars records content cnt = DumpOutcome.ok c n →
      maxchars ≤ (n : Int) ∧ (n : Int) < maxchars + (R : Int) := by
  intro records
  induction records with
  | nil =>
    intro content cnt c n _ _ hc h
    rw [dumpLoop_nil, if_pos hc] at h
    exact absurd h (by simp)
  | cons r rs ih =>
    intro content cnt c n hkeys hR hc h
    rw [dumpLoop_cons, if_pos hc,
      writeFields_of_keysPresent r data_keys content cnt (hkeys r (by simp))] at h
    by_cases hc2 : ((cnt + recordWriteLen data_keys r : Nat) : Int) < maxchars
    · exact ih _ _ _ _ (fun x hx => hkeys x (by simp [hx])) (fun x hx => hR x (by simp [hx])) hc2 h
    · have hdone : dumpLoop data_keys maxchars rs (content ++ recordLine data_keys r)
          (cnt + recordWriteLen data_keys r)
          = DumpOutcome.ok (content ++ recordLine data_keys r) (cnt + recordWriteLen data_keys r) := by
        cases rs with
        | nil => rw [dumpLoop_nil, if_neg hc2]
        | cons a b => rw [dumpLoop_cons, if_neg hc2]
      have h2 : dumpLoop data_keys maxchars rs (content ++ recordLine data_keys r)
          (cnt + recordWriteLen data_keys r) = DumpOutcome.ok c n := h
      rw [hdone] at h2
      obtain ⟨rfl, rfl⟩ := DumpOutcome.ok.inj h2
      have hlen := hR r (by simp)
      constructor
      · push_cast at hc2 ⊢
        omega
      · push_cast at hc2 ⊢
        omega

theorem dumpLoop_exhaust (data_keys : List String) (maxchars : Int) :
    ∀ (records : List Record) (content : String) (cnt : Nat),
      (∀ r ∈ records, keysPresent r data_keys) →
      (((cnt + totalWriteLen data_keys records : Nat) : Int) < maxchars) →
      dumpLoop data_keys maxchars records content cnt
        = DumpOutcome.streamExhausted (content ++ joinLines data_keys records)
            (cnt + totalWriteLen data_keys records) := by
  intro records
  induction records with
  | nil =>
    intro content cnt _ hlt
    rw [dumpLoop_nil, if_pos (by simpa [totalWriteLen] using hlt)]
    simp [joinLines, totalWriteLen, String.append_empty]
  | cons r rs ih =>
    intro content cnt hkeys hlt
    have hc : (cnt : Int) < maxchars := by
      simp only [totalWriteLen] at hlt
      push_cast at hlt ⊢
      omega
    rw [dumpLoop_cons, if_pos hc,
      writeFields_of_keysPresent r data_keys content cnt (hkeys r (by simp))]
    have hrec := ih (content ++ recordLine data_keys r) (cnt + recordWriteLen data_keys r)
      (fun x hx => hkeys x (by simp [hx]))
      (by simp only [totalWriteLen] at hlt; push_cast at hlt ⊢; omega)
    simp only [totalWriteLen]
    rw [hrec]
    simp [joinLines, String.append_assoc, Nat.add_assoc]

theorem followerPoll_eventually (path : String) (ex : Nat → Bool) :
    ∀ (k i fuel : Nat), (∀ j, j < k → ex (i + j) = false) → ex (i + k) = true → k < fuel →
      followerPoll path ex i fuel
        = some (List.flatten (List.replicate k [Ev.pollExists path false, Ev.sleep 1])
            ++ [Ev.pollExists path true, Ev.sleep 1]) := by
  intro k
  induction k with
  | zero =>
    intro i fuel _ ht hfuel
    cases fuel with
    | zero => omega
    | succ f =>
      have hi : ex i = true := by simpa using ht
      simp [followerPoll, hi]
  | succ k2 ih =>
    intro i fuel hf ht hfuel
    cases fuel with
    | zero => omega
    | succ f =>
      have h0 : ex i = false := by simpa using hf 0 (by omega)
      have hstep := ih (i + 1) f
        (fun j hj => by rw [Nat.add_assoc, Nat.add_comm 1 j]; exact hf (j + 1) (by omega))
        (by rw [Nat.add_assoc, Nat.add_comm 1 k2]; exact ht)
        (by omega)
      simp [followerPoll, h0, hstep, List.replicate_succ, List.flatten]

theorem followerPoll_never (path : String) (ex : Nat → Bool) (hex : ∀ j, ex j = false) :
    ∀ (fuel i : Nat), followerPoll path ex i fuel = none := by
  intro fuel
  induction fuel with
  | zero => intro i; rfl
  | succ f ih => intro i; simp [followerPoll, hex i, ih (i + 1)]

theorem followerPoll_events (path : String) (ex : Nat → Bool) :
    ∀ (fuel i : Nat) (l : List Ev), followerPoll path ex i fuel = some l →
      ∀ e ∈ l, (∃ b, e = Ev.pollExists path b) ∨ e = Ev.sleep 1 := by
  intro fuel
  induction fuel with
  | zero => intro i l h; simp [followerPoll] at h
  | succ f ih =>
    intro i l h e he
    by_cases hx : ex i
    · simp [followerPoll, hx] at h
      subst h
      simp at he
      rcases he with rfl | rfl
      · exact Or.inl ⟨true, rfl⟩
      · exact Or.inr rfl
    · cases hr : followerPoll path ex (i + 1) f with
      | none => simp [followerPoll, hx, hr] at h
      | some rest =>
        simp [followerPoll, hx, hr] at h
        subst h
        simp at he
        rcases he with rfl | rfl | hrest
        · exact Or.inl ⟨false, rfl⟩
        · exact Or.inr rfl
        · exact ih (i + 1) rest hr e hrest

theorem string_append_ne_self (s t : String) (ht : 0 < t.length) : s ++ t ≠ s := by
  intro hcontra
  have := congrArg String.length hcontra
  rw [String.length_append] at this
  omega

/-- C4: Scenario A — on records ab, cd, ef under the single key "text" with
maxBytes = 4, the sampler writes exactly the bytes "ab\ncd\n" to the scratch
file, stopping after the counter crosses 4, and returns a byte count of 6. -/
theorem claimC4_scenarioA :
    dump_chars_to_textfile [[("text", "ab")], [("text", "cd")], [("text", "ef")]] 4 ["text"]
      = DumpOutcome.ok "ab\ncd\n" 6 := by decide

/-- C10: for every maxchars ≤ 0 the sampler consumes no records, writes no
bytes, and returns normally with byte count 0, whatever the stream and keys:
the while-condition 0 < maxchars is already false on entry. -/
theorem claimC10_nonpositive_budget (dataset : List Record) (data_keys : List String)
    (maxchars : Int) (hneg : maxchars ≤ 0) :
    dump_chars_to_textfile dataset maxchars data_keys = DumpOutcome.ok "" 0 := by
  unfold dump_chars_to_textfile
  cases dataset with
  | nil => rw [dumpLoop_nil, if_neg (by omega)]
  | cons a b => rw [dumpLoop_cons, if_neg (by omega)]

/-- C10 witness: the theorem applied at budget -3 on a nonempty stream. -/
theorem claimC10_witness :
    (-3 : Int) ≤ 0
      ∧ dump_chars_to_textfile [[("text", "ab")]] (-3) ["text"] = DumpOutcome.ok "" 0 :=
  ⟨by decide, claimC10_nonpositive_budget [[("text", "ab")]] ["text"] (-3) (by decide)⟩

/-- C9: whenever the sampler returns normally, the returned byte count is
exactly the number of bytes written to the scratch file, the length of the
accumulated content (every written field value plus its newline). -/
theorem claimC9_count_is_bytes_written (dataset : List Record) (data_keys : List String)
    (maxchars : Int) (c : String) (n : Nat)
    (h : dump_chars_to_textfile dataset maxchars data_keys = DumpOutcome.ok c n) :
    n = c.length :=
  dumpLoop_ok_length data_keys maxchars dataset "" 0 c n h rfl

/-- C9 witness: a normal return with byte count 4 and content "abc\n". -/
theorem claimC9_witness :
    dump_chars_to_textfile [[("text", "abc")]] 2 ["text"] = DumpOutcome.ok "abc\n" 4
      ∧ (4 : Nat) = ("abc\n" : String).length :=
  ⟨by decide, claimC9_count_is_bytes_written [[("text", "abc")]] ["text"] 2 "abc\n" 4 (by decide)⟩

/-- C2 counterexample: with two data keys and budget 1 the counter crosses
the budget on the first field write "qq\n", yet the source still writes the
second field "zz\n" of the same record, because the budget is only checked
at the top of the while loop; the spec-worded mid-record stop would have
left the file at "qq\n". -/
theorem claimC2_counterexample :
    dump_chars_to_textfile [[("a", "qq"), ("b", "zz")]] 1 ["a", "b"]
        = DumpOutcome.ok "qq\nzz\n" 6
      ∧ dumpCharsSpecMidStop [[("a", "qq"), ("b", "zz")]] 1 ["a", "b"]
        = DumpOutcome.ok "qq\n" 3
      ∧ ("qq\nzz\n" : String) ≠ "qq\n" :=
  ⟨by decide, by decide, by decide⟩

/-- C2 amended: the budget is checked only between records, so once a record
is begun every one of its configured fields is written even if the counter
crosses the budget mid-record; the sampler stops pulling further records as
soon as the counter is ≥ maxBytes, hence a normal return writes exactly the
whole-record serializations of the shortest record prefix whose cumulative
byte count meets the budget. -/
theorem claimC2_record_granular_stop (dataset : List Record) (data_keys : List String)
    (maxchars : Int) (c : String) (n : Nat)
    (hkeys : ∀ r ∈ dataset, keysPresent r data_keys)
    (h : dump_chars_to_textfile dataset maxchars data_keys = DumpOutcome.ok c n) :
    ∃ kk, kk ≤ dataset.length ∧
      c = joinLines data_keys (dataset.take kk) ∧
      n = totalWriteLen data_keys (dataset.take kk) ∧
      ¬ ((totalWriteLen data_keys (dataset.take kk) : Int) < maxchars) ∧
      ∀ j, j < kk → ((totalWriteLen data_keys (dataset.take j) : Int) < maxchars) := by
  obtain ⟨kk, h1, h2, h3, h4, h5⟩ := dumpLoop_ok_prefix data_keys maxchars dataset "" 0 c n hkeys h
  refine ⟨kk, h1, ?_, ?_, ?_, ?_⟩
  · simpa [String.empty_append] using h2
  · simpa using h3
  · simpa using h4
  · intro j hj
    simpa using h5 j hj

/-- C2 witness: on a two-record two-key stream with budget 4, the theorem
recovers the whole-record prefix decomposition of the output "qq\nzz\n". -/
theorem claimC2_witness :
    dump_chars_to_textfile [[("a", "qq"), ("b", "zz")], [("a", "uu"), ("b", "vv")]] 4 ["a", "b"]
        = DumpOutcome.ok "qq\nzz\n" 6
      ∧ ∃ kk, kk ≤ ([[("a", "qq"), ("b", "zz")], [("a", "uu"), ("b", "vv")]] : List Record).length ∧
          ("qq\nzz\n" : String)
            = joinLines ["a", "b"] (([[("a", "qq"), ("b", "zz")], [("a", "uu"), ("b", "vv")]] : List Record).take kk) ∧
          (6 : Nat)
            = totalWriteLen ["a", "b"] (([[("a", "qq"), ("b", "zz")], [("a", "uu"), ("b", "vv")]] : List Record).take kk) ∧
          ¬ ((totalWriteLen ["a", "b"] (([[("a", "qq"), ("b", "zz")], [("a", "uu"), ("b", "vv")]] : List Record).take kk) : Int) < 4) ∧
          ∀ j, j < kk →
            ((totalWriteLen ["a", "b"] (([[("a", "qq"), ("b", "zz")], [("a", "uu"), ("b", "vv")]] : List Record).take j) : Int) < 4) :=
  ⟨by decide,
   claimC2_record_granular_stop [[("a", "qq"), ("b", "zz")], [("a", "uu"), ("b", "vv")]]
     ["a", "b"] 4 "qq\nzz\n" 6 (by decide) (by decide)⟩

/-- C3 counterexample: with two keys per record and budget 1 the returned
byte count is 6 while the largest single serialized field write is 3, and
6 is not below 1 + 3: the overshoot spans every remaining field of the
record that crossed the budget, not just the one crossing field write. -/
theorem claimC3_counterexample :
    dump_chars_to_textfile [[("a", "xx"), ("b", "yy")]] 1 ["a", "b"]
        = DumpOutcome.ok "xx\nyy\n" 6
      ∧ maxSingleFieldWriteLen ["a", "b"] [[("a", "xx"), ("b", "yy")]] = 3
      ∧ ¬ ((6 : Int) < 1 + 3) :=
  ⟨by decide, by decide, by decide⟩

/-- C3 amended: for a positive budget, a normal return satisfies
maxBytes ≤ byteCount < maxBytes + R where R bounds the serialized length of
one whole record (the sum of all its field writes); the claimed
single-field-write bound is the special case of a single data key. -/
theorem claimC3_record_bounded_overshoot (dataset : List Record) (data_keys : List String)
    (maxchars : Int) (R : Nat) (c : String) (n : Nat)
    (hpos : 0 < maxchars)
    (hkeys : ∀ r ∈ dataset, keysPresent r data_keys)
    (hR : ∀ r ∈ dataset, recordWriteLen data_keys r ≤ R)
    (h : dump_chars_to_textfile dataset maxchars data_keys = DumpOutcome.ok c n) :
    maxchars ≤ (n : Int) ∧ (n : Int) < maxchars + (R : Int) :=
  dumpLoop_ok_bounds data_keys maxchars R dataset "" 0 c n hkeys hR (by simpa using hpos) h

/-- C3 witness: Scenario A with a single data key and R = 3: the byte count
6 lies in the half-open window from maxBytes 4 to maxBytes + 3. -/
theorem claimC3_witness :
    dump_chars_to_textfile [[("text", "ab")], [("text", "cd")], [("text", "ef")]] 4 ["text"]
        = DumpOutcome.ok "ab\ncd\n" 6
      ∧ (4 : Int) ≤ ((6 : Nat) : Int) ∧ ((6 : Nat) : Int) < 4 + ((3 : Nat) : Int) :=
  ⟨by decide,
   claimC3_record_bounded_overshoot [[("text", "ab")], [("text", "cd")], [("text", "ef")]]
     ["text"] 4 3 "ab\ncd\n" 6 (by decide) (by decide) (by decide) (by decide)⟩

/-- C5: when the stream's total serialized bytes fall short of the budget
the sampler fails with the stream-exhaustion error raised on pulling the
next record after the stream ends, rather than returning normally; every
record of the stream has been written to the scratch file by then, and the
error propagates unhandled out of _train_sentencepiece. -/
theorem claimC5_exhaustion (dataset : List Record) (data_keys : List String) (maxchars : Int)
    (hkeys : ∀ r ∈ dataset, keysPresent r data_keys)
    (hlt : ((totalWriteLen data_keys dataset : Nat) : Int) < maxchars) :
    dump_chars_to_textfile dataset maxchars data_keys
        = DumpOutcome.streamExhausted (joinLines data_keys dataset)
            (totalWriteLen data_keys dataset)
      ∧ ∀ (p : TrainParams) (env : Env) (fuel : Nat),
          p.maxchars = maxchars → p.data_keys = data_keys →
          train_sentencepiece p env dataset fuel
            = TrainResult.samplerError
                (DumpOutcome.streamExhausted (joinLines data_keys dataset)
                  (totalWriteLen data_keys dataset)) := by
  have hmain : dump_chars_to_textfile dataset maxchars data_keys
      = DumpOutcome.streamExhausted (joinLines data_keys dataset)
          (totalWriteLen data_keys dataset) := by
    have hx := dumpLoop_exhaust data_keys maxchars dataset "" 0 hkeys (by simpa using hlt)
    simpa [dump_chars_to_textfile, String.empty_append] using hx
  refine ⟨hmain, fun p env fuel hp hk => ?_⟩
  unfold train_sentencepiece
  rw [hp, hk, hmain]

/-- C5 witness: Scenario B — the three two-byte records under key "text"
with maxBytes 100 end in stream exhaustion after all records (all six
record bytes plus their newlines, 9 bytes of file content) are written,
and the coordinator surfaces that error. -/
theorem claimC5_witness :
    ((totalWriteLen ["text"] [[("text", "ab")], [("text", "cd")], [("text", "ef")]] : Nat) : Int) < 100
      ∧ (dump_chars_to_textfile [[("text", "ab")], [("text", "cd")], [("text", "ef")]] 100 ["text"]
          = DumpOutcome.streamExhausted
              (joinLines ["text"] [[("text", "ab")], [("text", "cd")], [("text", "ef")]])
              (totalWriteLen ["text"] [[("text", "ab")], [("text", "cd")], [("text", "ef")]])) :=
  ⟨by decide,
   (claimC5_exhaustion [[("text", "ab")], [("text", "cd")], [("text", "ef")]] ["text"] 100
     (by decide) (by decide)).1⟩

theorem train_ok_inv (p : TrainParams) (env : Env) (dataset : List Record) (fuel : Nat)
    (trace : List Ev) (ret : String)
    (h : train_sentencepiece p env dataset fuel = TrainResult.ok trace ret) :
    ret = absModelPathOf p env
    ∧ ((env.processIndex = 0 ∧
          trace = [Ev.sample p.maxchars env.dumpFname,
                   Ev.train env.dumpFname env.modelFpName
                     (mkArgstr env.dumpFname p.vocab_size p.character_coverage env.modelFpName p.model_type)]
              ++ (if startsWithGS p.model_path then [] else [Ev.makedirs (env.normPath p.assets_path)])
              ++ [Ev.copy (env.modelFpName ++ ".model") (absModelPathOf p env ++ ".rntmp") true,
                  Ev.rename (absModelPathOf p env ++ ".rntmp") (absModelPathOf p env) true])
      ∨ (env.processIndex ≠ 0 ∧
          ∃ polls, followerPoll (absModelPathOf p env) env.pollExists 0 fuel = some polls ∧
            trace = [Ev.sample p.maxchars env.dumpFname,
                     Ev.train env.dumpFname env.modelFpName
                       (mkArgstr env.dumpFname p.vocab_size p.character_coverage env.modelFpName p.model_type)]
                ++ polls)) := by
  unfold train_sentencepiece at h
  cases hd : dump_chars_to_textfile dataset p.maxchars p.data_keys with
  | ok c0 n0 =>
    rw [hd] at h
    dsimp only at h
    by_cases hi : env.processIndex = 0
    · rw [if_pos hi] at h
      obtain ⟨h1, h2⟩ := TrainResult.ok.inj h
      exact ⟨h2.symm, Or.inl ⟨hi, h1.symm⟩⟩
    · rw [if_neg hi] at h
      cases hp : followerPoll (absModelPathOf p env) env.pollExists 0 fuel with
      | none => rw [hp] at h; exact absurd h (by simp)
      | some polls =>
        rw [hp] at h
        obtain ⟨h1, h2⟩ := TrainResult.ok.inj h
        exact ⟨h2.symm, Or.inr ⟨hi, polls, rfl, h1.symm⟩⟩
  | streamExhausted c0 n0 => rw [hd] at h; exact absurd h (by simp)
  | keyError c0 n0 => rw [hd] at h; exact absurd h (by simp)

/-- C1 counterexample: a process with index 1, a follower, still invokes the
corpus sampler and SentencePieceTrainer.Train — both calls precede the
process-index check in the source — so its run is not sampling-free and
training-free as claimed. -/
theorem claimC1_counterexample :
    train_sentencepiece
        ⟨32, 4, "assets", "assets/tokenizer", "unigram", "1.0", ["text"]⟩
        ⟨1, "/tmp/ds_chars_c", "/tmp/sp_tmp_d", (fun s => "/w/" ++ s), (fun _ => true)⟩
        [[("text", "ab")], [("text", "cd")], [("text", "ef")]] 1
      = TrainResult.ok
          [Ev.sample 4 "/tmp/ds_chars_c",
           Ev.train "/tmp/ds_chars_c" "/tmp/sp_tmp_d"
             "--input=/tmp/ds_chars_c --vocab_size=32 --character_coverage=1.0 --model_prefix=/tmp/sp_tmp_d --model_type=unigram",
           Ev.pollExists "/w/assets/tokenizer" true, Ev.sleep 1]
          "/w/assets/tokenizer"
      ∧ Ev.sample 4 "/tmp/ds_chars_c"
          ∈ [Ev.sample 4 "/tmp/ds_chars_c",
             Ev.train "/tmp/ds_chars_c" "/tmp/sp_tmp_d"
               "--input=/tmp/ds_chars_c --vocab_size=32 --character_coverage=1.0 --model_prefix=/tmp/sp_tmp_d --model_type=unigram",
             Ev.pollExists "/w/assets/tokenizer" true, Ev.sleep 1]
      ∧ Ev.train "/tmp/ds_chars_c" "/tmp/sp_tmp_d"
            "--input=/tmp/ds_chars_c --vocab_size=32 --character_coverage=1.0 --model_prefix=/tmp/sp_tmp_d --model_type=unigram"
          ∈ [Ev.sample 4 "/tmp/ds_chars_c",
             Ev.train "/tmp/ds_chars_c" "/tmp/sp_tmp_d"
               "--input=/tmp/ds_chars_c --vocab_size=32 --character_coverage=1.0 --model_prefix=/tmp/sp_tmp_d --model_type=unigram",
             Ev.pollExists "/w/assets/tokenizer" true, Ev.sleep 1] :=
  ⟨by decide, by decide, by decide⟩

/-- C1 amended: every process, follower or leader, performs the corpus
sampling and the training call, which precede the process-index check; the
check gates only publication: a process with nonzero index executes no
makedirs, copy or rename, and beyond its sampling and training events it
only polls and sleeps, while process 0 performs the publishing rename — so
exactly the one process with index 0 publishes. -/
theorem claimC1_every_process_samples_and_trains (p : TrainParams) (env : Env)
    (dataset : List Record) (fuel : Nat) (trace : List Ev) (ret : String)
    (h : train_sentencepiece p env dataset fuel = TrainResult.ok trace ret) :
    (Ev.sample p.maxchars env.dumpFname ∈ trace
      ∧ Ev.train env.dumpFname env.modelFpName
          (mkArgstr env.dumpFname p.vocab_size p.character_coverage env.modelFpName p.model_type)
        ∈ trace)
    ∧ (env.processIndex ≠ 0 →
        (∀ e ∈ trace, Ev.isPublish e = false)
        ∧ ∀ e ∈ trace,
            e = Ev.sample p.maxchars env.dumpFname
            ∨ e = Ev.train env.dumpFname env.modelFpName
                (mkArgstr env.dumpFname p.vocab_size p.character_coverage env.modelFpName p.model_type)
            ∨ (∃ b, e = Ev.pollExists ret b) ∨ e = Ev.sleep 1)
    ∧ (env.processIndex = 0 → Ev.rename (ret ++ ".rntmp") ret true ∈ trace) := by
  obtain ⟨hret, hcase⟩ := train_ok_inv p env dataset fuel trace ret h
  rcases hcase with ⟨hi, htr⟩ | ⟨hi, polls, hp, htr⟩
  · subst hret
    refine ⟨⟨?_, ?_⟩, fun hne => absurd hi hne, fun _ => ?_⟩
    · rw [htr]; simp
    · rw [htr]; simp
    · rw [htr]; simp
  · subst hret
    refine ⟨⟨?_, ?_⟩, fun _ => ⟨?_, ?_⟩, fun h0 => absurd h0 hi⟩
    · rw [htr]; simp
    · rw [htr]; simp
    · intro e he
      rw [htr] at he
      rcases List.mem_append.mp he with hpre | hpoll
      · simp at hpre
        rcases hpre with rfl | rfl <;> rfl
      · rcases followerPoll_events _ _ fuel 0 polls hp e hpoll with ⟨b, rfl⟩ | rfl <;> rfl
    · intro e he
      rw [htr] at he
      rcases List.mem_append.mp he with hpre | hpoll
      · simp at hpre
        rcases hpre with rfl | rfl
        · exact Or.inl rfl
        · exact Or.inr (Or.inl rfl)
      · rcases followerPoll_events _ _ fuel 0 polls hp e hpoll with ⟨b, rfl⟩ | rfl
        · exact Or.inr (Or.inr (Or.inl ⟨b, rfl⟩))
        · exact Or.inr (Or.inr (Or.inr rfl))

/-- C1 witness: a follower with process index 2 whose run returns normally;
the theorem applies, exhibiting its sampling and training events and the
absence of publish events. -/
theorem claimC1_witness :
    train_sentencepiece
        ⟨32, 4, "assets", "assets/tokenizer", "unigram", "1.0", ["text"]⟩
        ⟨2, "/tmp/ds_w1", "/tmp/sp_w1", (fun s => "/w/" ++ s), (fun _ => true)⟩
        [[("text", "ab")], [("text", "cd")], [("text", "ef")]] 1
      = TrainResult.ok
          [Ev.sample 4 "/tmp/ds_w1",
           Ev.train "/tmp/ds_w1" "/tmp/sp_w1"
             "--input=/tmp/ds_w1 --vocab_size=32 --character_coverage=1.0 --model_prefix=/tmp/sp_w1 --model_type=unigram",
           Ev.pollExists "/w/assets/tokenizer" true, Ev.sleep 1]
          "/w/assets/tokenizer"
    ∧ ((Ev.sample 4 "/tmp/ds_w1"
          ∈ [Ev.sample 4 "/tmp/ds_w1",
             Ev.train "/tmp/ds_w1" "/tmp/sp_w1"
               "--input=/tmp/ds_w1 --vocab_size=32 --character_coverage=1.0 --model_prefix=/tmp/sp_w1 --model_type=unigram",
             Ev.pollExists "/w/assets/tokenizer" true, Ev.sleep 1]
        ∧ Ev.train "/tmp/ds_w1" "/tmp/sp_w1"
              "--input=/tmp/ds_w1 --vocab_size=32 --character_coverage=1.0 --model_prefix=/tmp/sp_w1 --model_type=unigram"
            ∈ [Ev.sample 4 "/tmp/ds_w1",
               Ev.train "/tmp/ds_w1" "/tmp/sp_w1"
                 "--input=/tmp/ds_w1 --vocab_size=32 --character_coverage=1.0 --model_prefix=/tmp/sp_w1 --model_type=unigram",
               Ev.pollExists "/w/assets/tokenizer" true, Ev.sleep 1])
        ∧ ((2 : Nat) ≠ 0 →
            (∀ e ∈ [Ev.sample 4 "/tmp/ds_w1",
                    Ev.train "/tmp/ds_w1" "/tmp/sp_w1"
                      "--input=/tmp/ds_w1 --vocab_size=32 --character_coverage=1.0 --model_prefix=/tmp/sp_w1 --model_type=unigram",
                    Ev.pollExists "/w/assets/tokenizer" true, Ev.sleep 1], Ev.isPublish e = false)
            ∧ ∀ e ∈ [Ev.sample 4 "/tmp/ds_w1",
                     Ev.train "/tmp/ds_w1" "/tmp/sp_w1"
                       "--input=/tmp/ds_w1 --vocab_size=32 --character_coverage=1.0 --model_prefix=/tmp/sp_w1 --model_type=unigram",
                     Ev.pollExists "/w/assets/tokenizer" true, Ev.sleep 1],
                e = Ev.sample 4 "/tmp/ds_w1"
                ∨ e = Ev.train "/tmp/ds_w1" "/tmp/sp_w1"
                    "--input=/tmp/ds_w1 --vocab_size=32 --character_coverage=1.0 --model_prefix=/tmp/sp_w1 --model_type=unigram"
                ∨ (∃ b, e = Ev.pollExists "/w/assets/tokenizer" b) ∨ e = Ev.sleep 1)
        ∧ ((2 : Nat) = 0 →
            Ev.rename ("/w/assets/tokenizer" ++ ".rntmp") "/w/assets/tokenizer" true
              ∈ [Ev.sample 4 "/tmp/ds_w1",
                 Ev.train "/tmp/ds_w1" "/tmp/sp_w1"
                   "--input=/tmp/ds_w1 --vocab_size=32 --character_coverage=1.0 --model_prefix=/tmp/sp_w1 --model_type=unigram",
                 Ev.pollExists "/w/assets/tokenizer" true, Ev.sleep 1])) :=
  ⟨by decide,
   claimC1_every_process_samples_and_trains
     ⟨32, 4, "assets", "assets/tokenizer", "unigram", "1.0", ["text"]⟩
     ⟨2, "/tmp/ds_w1", "/tmp/sp_w1", (fun s => "/w/" ++ s), (fun _ => true)⟩
     [[("text", "ab")], [("text", "cd")], [("text", "ef")]] 1
     [Ev.sample 4 "/tmp/ds_w1",
      Ev.train "/tmp/ds_w1" "/tmp/sp_w1"
        "--input=/tmp/ds_w1 --vocab_size=32 --character_coverage=1.0 --model_prefix=/tmp/sp_w1 --model_type=unigram",
      Ev.pollExists "/w/assets/tokenizer" true, Ev.sleep 1]
     "/w/assets/tokenizer" (by decide)⟩

/-- C6: on the leader the trained model is never written directly to the
final path: among the trace's file-creating operations the only one whose
target is the final path is the single rename from the staging path
finalPath + ".rntmp" with unconditional overwrite, and the trace ends with
the staged copy followed by that rename, in that order. The freshness
hypotheses say the two temporary-file names differ from the final path, as
NamedTemporaryFile guarantees for the /tmp-prefixed names in the source. -/
theorem claimC6_single_rename_publishes (p : TrainParams) (env : Env) (dataset : List Record)
    (fuel : Nat) (trace : List Ev) (ret : String)
    (hleader : env.processIndex = 0)
    (h : train_sentencepiece p env dataset fuel = TrainResult.ok trace ret)
    (hdump : env.dumpFname ≠ ret)
    (htrain : env.modelFpName ++ ".model" ≠ ret) :
    trace.filter (fun e => Ev.fileWriteTarget e = some ret)
        = [Ev.rename (ret ++ ".rntmp") ret true]
      ∧ ∃ t0, trace = t0 ++ [Ev.copy (env.modelFpName ++ ".model") (ret ++ ".rntmp") true,
                             Ev.rename (ret ++ ".rntmp") ret true] := by
  obtain ⟨hret, hcase⟩ := train_ok_inv p env dataset fuel trace ret h
  rcases hcase with ⟨_, htr⟩ | ⟨hi, _⟩
  · subst hret
    have hrn : absModelPathOf p env ++ ".rntmp" ≠ absModelPathOf p env :=
      string_append_ne_self _ _ (by decide)
    constructor
    · rw [htr]
      by_cases hgs : startsWithGS p.model_path
      · simp [hgs, Ev.fileWriteTarget, hdump, htrain, hrn]
      · simp [hgs, Ev.fileWriteTarget, hdump, htrain, hrn]
    · exact ⟨_, htr⟩
  · exact absurd hleader hi

/-- C6 witness: a concrete leader run with a local model path; the lone
writer of "/w/assets/tokenizer" is the rename from its .rntmp staging
path, preceded by the staged copy. -/
theorem claimC6_witness :
    train_sentencepiece
        ⟨32, 4, "assets", "assets/tokenizer", "unigram", "1.0", ["text"]⟩
        ⟨0, "/tmp/ds_w2", "/tmp/sp_w2", (fun s => "/w/" ++ s), (fun _ => false)⟩
        [[("text", "ab")], [("text", "cd")], [("text", "ef")]] 0
      = TrainResult.ok
          [Ev.sample 4 "/tmp/ds_w2",
           Ev.train "/tmp/ds_w2" "/tmp/sp_w2"
             "--input=/tmp/ds_w2 --vocab_size=32 --character_coverage=1.0 --model_prefix=/tmp/sp_w2 --model_type=unigram",
           Ev.makedirs "/w/assets",
           Ev.copy "/tmp/sp_w2.model" "/w/assets/tokenizer.rntmp" true,
           Ev.rename "/w/assets/tokenizer.rntmp" "/w/assets/tokenizer" true]
          "/w/assets/tokenizer"
    ∧ ("/tmp/ds_w2" : String) ≠ "/w/assets/tokenizer"
    ∧ ("/tmp/sp_w2" : String) ++ ".model" ≠ "/w/assets/tokenizer"
    ∧ (([Ev.sample 4 "/tmp/ds_w2",
         Ev.train "/tmp/ds_w2" "/tmp/sp_w2"
           "--input=/tmp/ds_w2 --vocab_size=32 --character_coverage=1.0 --model_prefix=/tmp/sp_w2 --model_type=unigram",
         Ev.makedirs "/w/assets",
         Ev.copy "/tmp/sp_w2.model" "/w/assets/tokenizer.rntmp" true,
         Ev.rename "/w/assets/tokenizer.rntmp" "/w/assets/tokenizer" true] : List Ev).filter
            (fun e => Ev.fileWriteTarget e = some "/w/assets/tokenizer")
          = [Ev.rename ("/w/assets/tokenizer" ++ ".rntmp") "/w/assets/tokenizer" true]
        ∧ ∃ t0, [Ev.sample 4 "/tmp/ds_w2",
                 Ev.train "/tmp/ds_w2" "/tmp/sp_w2"
                   "--input=/tmp/ds_w2 --vocab_size=32 --character_coverage=1.0 --model_prefix=/tmp/sp_w2 --model_type=unigram",
                 Ev.makedirs "/w/assets",
                 Ev.copy "/tmp/sp_w2.model" "/w/assets/tokenizer.rntmp" true,
                 Ev.rename "/w/assets/tokenizer.rntmp" "/w/assets/tokenizer" true]
              = t0 ++ [Ev.copy (("/tmp/sp_w2" : String) ++ ".model") ("/w/assets/tokenizer" ++ ".rntmp") true,
                       Ev.rename ("/w/assets/tokenizer" ++ ".rntmp") "/w/assets/tokenizer" true]) :=
  ⟨by decide, by decide, by decide,
   claimC6_single_rename_publishes
     ⟨32, 4, "assets", "assets/tokenizer", "unigram", "1.0", ["text"]⟩
     ⟨0, "/tmp/ds_w2", "/tmp/sp_w2", (fun s => "/w/" ++ s), (fun _ => false)⟩
     [[("text", "ab")], [("text", "cd")], [("text", "ef")]] 0
     [Ev.sample 4 "/tmp/ds_w2",
      Ev.train "/tmp/ds_w2" "/tmp/sp_w2"
        "--input=/tmp/ds_w2 --vocab_size=32 --character_coverage=1.0 --model_prefix=/tmp/sp_w2 --model_type=unigram",
      Ev.makedirs "/w/assets",
      Ev.copy "/tmp/sp_w2.model" "/w/assets/tokenizer.rntmp" true,
      Ev.rename "/w/assets/tokenizer.rntmp" "/w/assets/tokenizer" true]
     "/w/assets/tokenizer" rfl (by decide) (by decide) (by decide)⟩

/-- C7: in the leader's publish step the assets directory is created if
and only if the model path is local: for a model path that does not start
with "gs://" the makedirs call appears, immediately before the copy and
rename; for a "gs://" model path no makedirs event occurs anywhere. -/
theorem claimC7_makedirs_iff_local (p : TrainParams) (env : Env) (dataset : List Record)
    (fuel : Nat) (trace : List Ev) (ret : String)
    (hleader : env.processIndex = 0)
    (h : train_sentencepiece p env dataset fuel = TrainResult.ok trace ret) :
    (¬ startsWithGS p.model_path = true →
       ∃ t0, trace = t0 ++ [Ev.makedirs (env.normPath p.assets_path),
                            Ev.copy (env.modelFpName ++ ".model") (ret ++ ".rntmp") true,
                            Ev.rename (ret ++ ".rntmp") ret true])
    ∧ (startsWithGS p.model_path = true → ∀ d, Ev.makedirs d ∉ trace) := by
  obtain ⟨hret, hcase⟩ := train_ok_inv p env dataset fuel trace ret h
  rcases hcase with ⟨_, htr⟩ | ⟨hi, _⟩
  · subst hret
    constructor
    · intro hgs
      rw [htr, if_neg hgs]
      exact ⟨[Ev.sample p.maxchars env.dumpFname,
              Ev.train env.dumpFname env.modelFpName
                (mkArgstr env.dumpFname p.vocab_size p.character_coverage env.modelFpName
                  p.model_type)], by simp⟩
    · intro hgs d hmem
      rw [htr, if_pos hgs] at hmem
      simp at hmem
  · exact absurd hleader hi

/-- C7 witness: a leader publishing to a gs:// destination performs no
makedirs at all (the local-path conjunct holds vacuously). -/
theorem claimC7_witness :
    train_sentencepiece
        ⟨32, 4, "assets", "gs://bucket/tok", "unigram", "1.0", ["text"]⟩
        ⟨0, "/tmp/ds_w3", "/tmp/sp_w3", (fun s => "/w/" ++ s), (fun _ => false)⟩
        [[("text", "ab")], [("text", "cd")], [("text", "ef")]] 0
      = TrainResult.ok
          [Ev.sample 4 "/tmp/ds_w3",
           Ev.train "/tmp/ds_w3" "/tmp/sp_w3"
             "--input=/tmp/ds_w3 --vocab_size=32 --character_coverage=1.0 --model_prefix=/tmp/sp_w3 --model_type=unigram",
           Ev.copy "/tmp/sp_w3.model" "gs://bucket/tok.rntmp" true,
           Ev.rename "gs://bucket/tok.rntmp" "gs://bucket/tok" true]
          "gs://bucket/tok"
    ∧ startsWithGS "gs://bucket/tok" = true
    ∧ ((¬ startsWithGS "gs://bucket/tok" = true →
          ∃ t0, [Ev.sample 4 "/tmp/ds_w3",
                 Ev.train "/tmp/ds_w3" "/tmp/sp_w3"
                   "--input=/tmp/ds_w3 --vocab_size=32 --character_coverage=1.0 --model_prefix=/tmp/sp_w3 --model_type=unigram",
                 Ev.copy "/tmp/sp_w3.model" "gs://bucket/tok.rntmp" true,
                 Ev.rename "gs://bucket/tok.rntmp" "gs://bucket/tok" true]
              = t0 ++ [Ev.makedirs ((fun s => "/w/" ++ s) "assets"),
                       Ev.copy (("/tmp/sp_w3" : String) ++ ".model") ("gs://bucket/tok" ++ ".rntmp") true,
                       Ev.rename ("gs://bucket/tok" ++ ".rntmp") "gs://bucket/tok" true])
        ∧ (startsWithGS "gs://bucket/tok" = true →
            ∀ d, Ev.makedirs d
              ∉ [Ev.sample 4 "/tmp/ds_w3",
                 Ev.train "/tmp/ds_w3" "/tmp/sp_w3"
                   "--input=/tmp/ds_w3 --vocab_size=32 --character_coverage=1.0 --model_prefix=/tmp/sp_w3 --model_type=unigram",
                 Ev.copy "/tmp/sp_w3.model" "gs://bucket/tok.rntmp" true,
                 Ev.rename "gs://bucket/tok.rntmp" "gs://bucket/tok" true])) :=
  ⟨by decide, by decide,
   claimC7_makedirs_iff_local
     ⟨32, 4, "assets", "gs://bucket/tok", "unigram", "1.0", ["text"]⟩
     ⟨0, "/tmp/ds_w3", "/tmp/sp_w3", (fun s => "/w/" ++ s), (fun _ => false)⟩
     [[("text", "ab")], [("text", "cd")], [("text", "ef")]] 0
     [Ev.sample 4 "/tmp/ds_w3",
      Ev.train "/tmp/ds_w3" "/tmp/sp_w3"
        "--input=/tmp/ds_w3 --vocab_size=32 --character_coverage=1.0 --model_prefix=/tmp/sp_w3 --model_type=unigram",
      Ev.copy "/tmp/sp_w3.model" "gs://bucket/tok.rntmp" true,
      Ev.rename "gs://bucket/tok.rntmp" "gs://bucket/tok" true]
     "gs://bucket/tok" rfl (by decide)⟩

/-- C8: a follower polls the final path at a fixed one-second interval with
no bound on the number of polls: if the path first exists at the k-th check
the run returns after exactly k+1 existence checks each followed by a
one-second sleep, the last sleep being the extra interval after existence
is first observed; and under an oracle that never reports existence the
follower never returns, for every unrolling bound. -/
theorem claimC8_poll_one_second_unbounded (p : TrainParams) (env : Env)
    (dataset : List Record) (fuel k : Nat) (c0 : String) (n0 : Nat)
    (hfollower : env.processIndex ≠ 0)
    (hsampler : dump_chars_to_textfile dataset p.maxchars p.data_keys = DumpOutcome.ok c0 n0) :
    ((∀ j, j < k → env.pollExists j = false) → env.pollExists k = true → k < fuel →
      train_sentencepiece p env dataset fuel
        = TrainResult.ok
            ([Ev.sample p.maxchars env.dumpFname,
              Ev.train env.dumpFname env.modelFpName
                (mkArgstr env.dumpFname p.vocab_size p.character_coverage env.modelFpName
                  p.model_type)]
              ++ (List.flatten (List.replicate k
                    [Ev.pollExists (absModelPathOf p env) false, Ev.sleep 1])
                  ++ [Ev.pollExists (absModelPathOf p env) true, Ev.sleep 1]))
            (absModelPathOf p env))
    ∧ ((∀ j, env.pollExists j = false) →
        ∀ f, train_sentencepiece p env dataset f = TrainResult.waiting) := by
  constructor
  · intro hf ht hfuel
    unfold train_sentencepiece
    rw [hsampler]
    dsimp only
    rw [if_neg hfollower,
      followerPoll_eventually (absModelPathOf p env) env.pollExists k 0 fuel
        (fun j hj => by simpa using hf j hj) (by simpa using ht) hfuel]
  · intro hex f
    unfold train_sentencepiece
    rw [hsampler]
    dsimp only
    rw [if_neg hfollower, followerPoll_never (absModelPathOf p env) env.pollExists hex f 0]

/-- C8 witness: a follower whose oracle first reports existence at the
third check (index 2) returns after three polls, each followed by a
one-second sleep, the final sleep coming after the successful check. -/
theorem claimC8_witness :
    train_sentencepiece
        ⟨32, 4, "assets", "assets/tokenizer", "unigram", "1.0", ["text"]⟩
        ⟨1, "/tmp/ds_w4", "/tmp/sp_w4", (fun s => "/w/" ++ s), (fun n => decide (2 ≤ n))⟩
        [[("text", "ab")], [("text", "cd")], [("text", "ef")]] 4
      = TrainResult.ok
          [Ev.sample 4 "/tmp/ds_w4",
           Ev.train "/tmp/ds_w4" "/tmp/sp_w4"
             "--input=/tmp/ds_w4 --vocab_size=32 --character_coverage=1.0 --model_prefix=/tmp/sp_w4 --model_type=unigram",
           Ev.pollExists "/w/assets/tokenizer" false, Ev.sleep 1,
           Ev.pollExists "/w/assets/tokenizer" false, Ev.sleep 1,
           Ev.pollExists "/w/assets/tokenizer" true, Ev.sleep 1]
          "/w/assets/tokenizer" :=
  (claimC8_poll_one_second_unbounded
     ⟨32, 4, "assets", "assets/tokenizer", "unigram", "1.0", ["text"]⟩
     ⟨1, "/tmp/ds_w4", "/tmp/sp_w4", (fun s => "/w/" ++ s), (fun n => decide (2 ≤ n))⟩
     [[("text", "ab")], [("text", "cd")], [("text", "ef")]] 4 2 "ab\ncd\n" 6
     (by decide) (by decide)).1 (by decide) (by decide) (by decide)
